import Mathlib

/-!
Verification of the Optimizer repository's retrieval and orchestration core.

The definitions below are a shallow embedding of the Python source:

* `src/backend/rag/indexer.py`   — `DocumentIndexer` (chunking, adding
  documents, saving the index),
* `src/backend/rag/retriever.py` — `DocumentRetriever` (search, multi-query
  context aggregation),
* `src/backend/knowledge_base/research_kb.py` — `ResearchKnowledgeBase`
  (hash-keyed storage, pruning),
* `src/backend/orchestrator.py`  — `OptimizerOrchestrator`
  (the comprehensive pipeline and its summary),
* `src/backend/app.py`           — the Flask-level global processing state
  (`/api/process`, `/api/clear`, the background completion write).

External collaborators (the sentence-transformer embedding model, the FAISS
flat inner-product index, the md5 hash) are modelled per their documented
contracts: embeddings and L2 normalization are opaque function parameters,
the flat index search is exact top-k by inner product in non-increasing
score order padded with index -1, and the hash is an arbitrary function
parameter (all theorems hold for every choice, hence for md5).

Python floats are modelled as rationals; Python ints as `Int`; Python lists
as `List`; Python dicts as association lists with insert-or-replace
semantics preserving key positions.
-/

namespace Optimizer

/-! ### Words and chunking (`DocumentIndexer.chunk_text`, indexer.py lines 57-70) -/

/-- Accumulator-based splitting of a character list into maximal runs of
non-whitespace characters; this is the behaviour of Python's `str.split()`
with no arguments (split on whitespace runs, drop empty pieces). -/
def words_aux : List Char → List Char → List (List Char)
  | [], acc => if acc.isEmpty then [] else [acc.reverse]
  | c :: cs, acc =>
    if c.isWhitespace then
      if acc.isEmpty then words_aux cs [] else acc.reverse :: words_aux cs []
    else
      words_aux cs (c :: acc)

/-- Model of Python `text.split()`: the whitespace-separated words of `text`. -/
def pywords (text : String) : List String :=
  (words_aux text.data []).map String.mk

/-- Model of `" ".join(ws)`. -/
def join_words (ws : List String) : String :=
  String.intercalate " " ws

/-- Effective stop position of the Python slice `ws[start : start + size]`:
a negative raw stop position counts from the end, clamped at 0; a
non-negative one is clamped at the length. -/
def py_stop (ws : List String) (start : ℕ) (size : ℤ) : ℤ :=
  if (start : ℤ) + size < 0 then max 0 ((ws.length : ℤ) + ((start : ℤ) + size))
  else min ((start : ℤ) + size) (ws.length : ℤ)

/-- Model of the Python slice `ws[start : start + size]` for `start : ℕ`
(our call sites always have `start < len(ws)`) and an arbitrary `size : ℤ`. -/
def py_slice_from (ws : List String) (start : ℕ) (size : ℤ) : List String :=
  if py_stop ws start size ≤ (start : ℤ) then []
  else (ws.drop start).take (py_stop ws start size - start).toNat

/-- Model of `DocumentIndexer.chunk_text(text, chunk_size, overlap)`
(indexer.py lines 57-70).  Notes on the translation:

* `if not text.strip(): return []` — a string strips to empty exactly when
  it has no whitespace-separated words, so the guard is `pywords text = []`;
* `range(0, len(words), chunk_size - overlap)` — raises `ValueError` when
  the step is zero (modelled as `.error`), is empty when the step is
  negative, and otherwise enumerates the multiples of the step below
  `len(words)`, of which there are `(len + step - 1) / step`;
* `if chunk.strip(): chunks.append(chunk)` — the words produced by
  `split()` are non-empty and whitespace-free, so the joined chunk is
  non-blank exactly when the slice is non-empty. -/
def chunk_text (text : String) (chunk_size : ℤ) (overlap : ℤ) :
    Except String (List String) :=
  if (pywords text).isEmpty then .ok []
  else if chunk_size - overlap = 0 then .error "range() arg 3 must not be zero"
  else if chunk_size - overlap < 0 then .ok []
  else
    .ok ((((List.range
        (((pywords text).length + (chunk_size - overlap).toNat - 1) / (chunk_size - overlap).toNat)).map
          (fun k => k * (chunk_size - overlap).toNat)).filterMap (fun i =>
      if (py_slice_from (pywords text) i chunk_size).isEmpty then none
      else some (join_words (py_slice_from (pywords text) i chunk_size)))))

example : pywords "  hello   world " = ["hello", "world"] := by decide
example : chunk_text "a b c" 2 1 = .ok ["a b", "b c", "c"] := rfl
example : chunk_text "   " 500 50 = .ok [] := rfl
example : chunk_text "a b" 0 (-1) = .ok [] := rfl
example : chunk_text "a b" 3 3 = .error "range() arg 3 must not be zero" := rfl
example : chunk_text "a b" 3 5 = .ok [] := rfl

lemma filterMap_eq_map_of_some {α β : Type} {f : α → Option β} {g : α → β} :
    ∀ l : List α, (∀ a ∈ l, f a = some (g a)) → l.filterMap f = l.map g
  | [], _ => rfl
  | a :: l, h => by
    rw [List.filterMap_cons, h a (List.mem_cons_self a l),
      filterMap_eq_map_of_some l (fun b hb => h b (List.mem_cons_of_mem a hb)), List.map_cons]

lemma py_stop_of_pos {ws : List String} {i : ℕ} {c : ℤ} (hc : 0 < c) :
    py_stop ws i c = min ((i : ℤ) + c) (ws.length : ℤ) := by
  unfold py_stop
  rw [if_neg (by omega)]

lemma py_slice_from_eq_take {ws : List String} {i : ℕ} {c : ℤ}
    (hi : i < ws.length) (hc : 0 < c) :
    py_slice_from ws i c = (ws.drop i).take c.toNat := by
  unfold py_slice_from
  rw [py_stop_of_pos hc, if_neg (by omega : ¬ (min ((i : ℤ) + c) (ws.length : ℤ) ≤ (i : ℤ)))]
  rw [List.take_eq_take]
  have hlen : (ws.drop i).length = ws.length - i := List.length_drop i ws
  omega

lemma py_slice_from_ne_nil {ws : List String} {i : ℕ} {c : ℤ}
    (hi : i < ws.length) (hc : 0 < c) :
    (py_slice_from ws i c).isEmpty = false := by
  rw [py_slice_from_eq_take hi hc]
  have hlen : ((ws.drop i).take c.toNat).length = min c.toNat (ws.length - i) := by
    rw [List.length_take, List.length_drop]
  rcases h : (ws.drop i).take c.toNat with _ | ⟨a, l⟩
  · rw [h] at hlen; simp at hlen; omega
  · rfl

/-- Core shape of `chunk_text` for a positive step and positive window: the
result is the word windows of width `chunk_size` starting at the multiples of
`chunk_size - overlap` below the word count. -/
lemma chunk_text_eq_windows (text : String) (c o : ℤ) (hco : o < c) (hc : 0 < c) :
    chunk_text text c o =
      .ok ((List.range (((pywords text).length + (c - o).toNat - 1) / (c - o).toNat)).map
        (fun k => join_words (((pywords text).drop (k * (c - o).toNat)).take c.toNat))) := by
  unfold chunk_text
  have hs : 0 < (c - o).toNat := by omega
  rcases hempty : (pywords text).isEmpty with _ | _
  · -- non-blank text
    rw [if_neg Bool.false_ne_true,
      if_neg (by omega : ¬ (c - o = 0)), if_neg (by omega : ¬ (c - o < 0))]
    congr 1
    rw [List.filterMap_map, filterMap_eq_map_of_some]
    intro k hk
    rw [List.mem_range] at hk
    have hkn : k * (c - o).toNat < (pywords text).length := by
      have h2 : (k + 1) * (c - o).toNat ≤ (pywords text).length + (c - o).toNat - 1 :=
        (Nat.le_div_iff_mul_le hs).1 hk
      have h3 : k * (c - o).toNat + (c - o).toNat = (k + 1) * (c - o).toNat := by ring
      have h4 : (pywords text).length ≠ 0 := by
        intro h0
        rw [List.length_eq_zero] at h0
        rw [h0] at hempty
        simp at hempty
      omega
    simp only [Function.comp]
    have hne := py_slice_from_ne_nil hkn hc
    rw [py_slice_from_eq_take hkn hc] at hne
    rw [py_slice_from_eq_take hkn hc, hne, if_neg Bool.false_ne_true]
  · -- blank text: both sides are the empty chunk list
    rw [if_pos rfl]
    rw [List.isEmpty_iff] at hempty
    rw [hempty]
    have hz : ((List.nil (α := String)).length + (c - o).toNat - 1) / (c - o).toNat = 0 :=
      Nat.div_eq_of_lt (by simp; omega)
    rw [hz]
    rfl

/-- C1.  `chunk_text` with the default `chunk_size = 500`, `overlap = 50` is a
pure function (hence deterministic); it returns no chunks for blank or
whitespace-only text (text with no words); otherwise it returns exactly the
windows of 500 consecutive words starting at word positions
`0, 450, 900, ...` below the word count (the final partial window retained —
there are `⌈wordcount / 450⌉` of them); a 600-word text yields exactly the 2
chunks starting at word 0 and word 450; and every word of the input lies in
at least one window. -/
theorem chunk_text_default_windows (text : String) :
    (pywords text = [] → chunk_text text 500 50 = .ok []) ∧
    (chunk_text text 500 50 =
      .ok ((List.range (((pywords text).length + 449) / 450)).map
        (fun k => join_words (((pywords text).drop (k * 450)).take 500)))) ∧
    ((pywords text).length = 600 →
      chunk_text text 500 50 =
        .ok [join_words ((pywords text).take 500), join_words ((pywords text).drop 450)]) ∧
    (∀ w ∈ pywords text, ∃ k, k < ((pywords text).length + 449) / 450 ∧
      w ∈ ((pywords text).drop (k * 450)).take 500) := by
  have hmain := chunk_text_eq_windows text 500 50 (by norm_num) (by norm_num)
  norm_num at hmain
  simp only [show Int.toNat 450 = 450 from rfl, show Int.toNat 500 = 500 from rfl] at hmain
  norm_num at hmain
  refine ⟨?_, hmain, ?_, ?_⟩
  · intro hnil
    rw [hmain, hnil]
    rfl
  · intro h600
    rw [hmain, h600]
    have h2 : (600 + 449) / 450 = 2 := by norm_num
    rw [h2]
    have hr : List.range 2 = [0, 1] := rfl
    rw [hr]
    simp only [List.map_cons, List.map_nil, Nat.zero_mul, Nat.one_mul, List.drop_zero]
    congr 2
    · rw [List.take_of_length_le]
      rw [List.length_drop, h600]
      norm_num
  · intro w hw
    obtain ⟨j, hj, hwj⟩ := List.mem_iff_getElem.1 hw
    refine ⟨j / 450, by omega, ?_⟩
    have hk1 : (j / 450) * 450 ≤ j := Nat.div_mul_le_self j 450
    have hk2 : j < (j / 450) * 450 + 450 := by omega
    have hget : (((pywords text).drop (j / 450 * 450)).take 500)[j - j / 450 * 450]? = some w := by
      rw [List.getElem?_take, if_pos (by omega)]
      rw [List.getElem?_drop]
      have : j / 450 * 450 + (j - j / 450 * 450) = j := by omega
      rw [this, List.getElem?_eq_getElem hj, hwj]
    exact List.getElem?_mem hget

/-- Concrete 600-word character sequence: 600 copies of the word `w`
separated by single spaces. -/
def rep_chars : ℕ → List Char
  | 0 => []
  | 1 => ['w']
  | n + 2 => 'w' :: ' ' :: rep_chars (n + 1)

lemma words_aux_rep_chars : ∀ n : ℕ, words_aux (rep_chars (n + 1)) [] = List.replicate (n + 1) ['w']
  | 0 => rfl
  | n + 1 => by
    show words_aux ('w' :: ' ' :: rep_chars (n + 1)) [] = _
    rw [List.replicate_succ]
    show words_aux (' ' :: rep_chars (n + 1)) ['w'] = _
    show ['w'].reverse :: words_aux (rep_chars (n + 1)) [] = _
    rw [words_aux_rep_chars n]
    rfl

lemma pywords_rep_chars (n : ℕ) : pywords (String.mk (rep_chars (n + 1))) = List.replicate (n + 1) "w" := by
  unfold pywords
  show (words_aux (rep_chars (n + 1)) []).map String.mk = _
  rw [words_aux_rep_chars n, List.map_replicate]

set_option maxRecDepth 10000 in
/-- Witness for C1: on a concrete 600-word text, `chunk_text` with the default
parameters yields exactly the two chunks of words 0-499 and words 450-599. -/
theorem chunk_text_default_windows_witness :
    chunk_text (String.mk (rep_chars 600)) 500 50 =
      .ok [join_words (List.replicate 500 "w"), join_words (List.replicate 150 "w")] := by
  have h600 : (pywords (String.mk (rep_chars 600))).length = 600 := by
    rw [(by norm_num : (600 : ℕ) = 599 + 1), pywords_rep_chars]
    exact List.length_replicate 600 "w"
  have h := (chunk_text_default_windows (String.mk (rep_chars 600))).2.2.1 h600
  rw [h, (by norm_num : (600 : ℕ) = 599 + 1), pywords_rep_chars]
  rw [List.take_replicate, List.drop_replicate]
  norm_num

/-- C10 (amended).  With `0 < chunk_size` and `overlap < chunk_size`,
`chunk_text` never raises and returns a non-empty chunk list exactly when the
text contains at least one word; with `overlap = chunk_size` it raises the
zero-step `range` error on any text with at least one word; with
`overlap > chunk_size` it silently returns the empty list even for non-empty
text.  (The claim's original precondition `overlap < chunk_size` alone is not
enough: see the counterexample at `chunk_size = 0`, `overlap = -1`.) -/
theorem chunk_text_totality (text : String) (c o : ℤ) :
    (0 < c → o < c →
      ∃ cs, chunk_text text c o = .ok cs ∧ (cs ≠ [] ↔ pywords text ≠ [])) ∧
    (o = c → pywords text ≠ [] →
      chunk_text text c o = .error "range() arg 3 must not be zero") ∧
    (c < o → pywords text ≠ [] → chunk_text text c o = .ok []) := by
  refine ⟨?_, ?_, ?_⟩
  · intro hc hco
    refine ⟨_, chunk_text_eq_windows text c o hco hc, ?_⟩
    have hs : 0 < (c - o).toNat := by omega
    rw [Ne, List.map_eq_nil_iff, List.range_eq_nil]
    constructor
    · intro hm hnil
      rw [hnil] at hm
      exact hm (Nat.div_eq_of_lt (by simp; omega))
    · intro hne hm
      rcases hn : (pywords text).length with _ | n
      · exact hne (List.length_eq_zero.1 hn)
      · rw [hn] at hm
        have h1 : 1 ≤ (n + 1 + (c - o).toNat - 1) / (c - o).toNat :=
          (Nat.le_div_iff_mul_le hs).2 (by omega)

        omega
  · intro hoc hne
    unfold chunk_text
    rw [if_neg (by simp only [List.isEmpty_iff]; exact hne), if_pos (by omega)]
  · intro hcv hne
    unfold chunk_text
    rw [if_neg (by simp only [List.isEmpty_iff]; exact hne), if_neg (by omega),
      if_pos (by omega)]

/-- Counterexample for C10 as stated: with `chunk_size = 0` and
`overlap = -1` the precondition `overlap < chunk_size` holds, the call does
not raise, yet it returns the empty chunk list for a text with two words —
so `overlap < chunk_size` alone does not make the result non-empty exactly
when the text has a word. -/
theorem chunk_text_totality_cx :
    ¬ (∀ (text : String) (c o : ℤ), o < c →
        ∃ cs, chunk_text text c o = .ok cs ∧ (cs ≠ [] ↔ pywords text ≠ [])) := by
  intro hcl
  obtain ⟨cs, hcs, hiff⟩ := hcl "a b" 0 (-1) (by norm_num)
  have h0 : chunk_text "a b" 0 (-1) = Except.ok [] := rfl
  rw [h0] at hcs
  have hnil : cs = [] := (Except.ok.inj hcs).symm
  have hne : pywords "a b" ≠ [] := by decide
  exact (hiff.2 hne) hnil

/-- Witness for C10: each branch of the totality theorem evaluated at a
concrete input. -/
theorem chunk_text_totality_witness :
    (∃ cs, chunk_text "x y z" 2 1 = .ok cs ∧ (cs ≠ [] ↔ pywords "x y z" ≠ [])) ∧
    chunk_text "x y" 3 3 = .error "range() arg 3 must not be zero" ∧
    chunk_text "x y" 3 7 = .ok [] :=
  ⟨(chunk_text_totality "x y z" 2 1).1 (by norm_num) (by norm_num),
   (chunk_text_totality "x y" 3 3).2.1 rfl (by decide),
   (chunk_text_totality "x y" 3 7).2.2 (by norm_num) (by decide)⟩

/-! ### Vectors, the FAISS flat index, and the retriever
(`DocumentRetriever`, retriever.py; `DocumentIndexer.add_documents` and
`save_index`, indexer.py) -/

/-- Embedding vectors (fixed-length float vectors, floats as rationals). -/
abbrev Vec : Type := List ℚ

/-- Exact product of two rationals in a kernel-computable form (the library
multiplication on `ℚ` is irreducible, which would block evaluating concrete
instances). -/
def rat_mul (a b : ℚ) : ℚ := mkRat (a.num * b.num) (a.den * b.den)

/-- Exact sum of two rationals in a kernel-computable form. -/
def rat_add (a b : ℚ) : ℚ :=
  mkRat (a.num * (b.den : ℤ) + b.num * (a.den : ℤ)) (a.den * b.den)

/-- Inner product of two vectors, the similarity score of the flat
inner-product index (`faiss.IndexFlatIP`); float arithmetic is modelled as
exact rational arithmetic. -/
def dot_ip (q v : Vec) : ℚ :=
  (List.zipWith rat_mul q v).foldr rat_add 0

/-- Chunk metadata dictionary shape produced by the indexer
(indexer.py lines 96-104). -/
structure DocMeta where
  source : String
  chunk_id : ℕ
  doc_type : String
  file_name : String
deriving DecidableEq

/-- Search result dictionary `{content, metadata, score}`
(retriever.py lines 63-67). -/
structure SearchResult where
  content : String
  metadata : DocMeta
  score : ℚ
deriving DecidableEq

/-- Non-increasing score order on search results: the order of
`results.sort(key=lambda x: x["score"], reverse=True)` and of the rows the
flat index returns. -/
def score_desc (a b : SearchResult) : Prop := b.score ≤ a.score

instance : DecidableRel score_desc :=
  fun a b => inferInstanceAs (Decidable (b.score ≤ a.score))

instance : IsTotal SearchResult score_desc := ⟨fun a b => le_total b.score a.score⟩

instance : IsTrans SearchResult score_desc := ⟨fun _ _ _ h1 h2 => le_trans h2 h1⟩

/-- Non-increasing order on scored rows `(score, index)` of the flat index. -/
def fst_desc (a b : ℚ × ℤ) : Prop := b.1 ≤ a.1

instance : DecidableRel fst_desc :=
  fun a b => inferInstanceAs (Decidable (b.1 ≤ a.1))

instance : IsTotal (ℚ × ℤ) fst_desc := ⟨fun a b => le_total b.1 a.1⟩

instance : IsTrans (ℚ × ℤ) fst_desc := ⟨fun _ _ _ h1 h2 => le_trans h2 h1⟩

/-- Model of `faiss.IndexFlatIP.search(query, k)` per its documented
contract: exact search over the stored vectors, returning `k` rows of
`(score, index)` ordered by decreasing inner product, padded with index `-1`
rows when fewer than `k` vectors are stored. -/
def faiss_search (vecs : List Vec) (q : Vec) (k : ℕ) : List (ℚ × ℤ) :=
  ((List.insertionSort fst_desc
      (vecs.enum.map (fun p => (dot_ip q p.2, (p.1 : ℤ))))).take k)
    ++ List.replicate (k - min k vecs.length) ((0 : ℚ), (-1 : ℤ))

/-- State of `DocumentRetriever` (retriever.py lines 9-16): the loaded
index, the parallel document and metadata lists, and the loaded flag. -/
structure RetrieverState where
  index : Option (List Vec)
  documents : List String
  metadata : List DocMeta
  is_loaded : Bool

/-- The result-collecting loop of `DocumentRetriever.search`
(retriever.py lines 60-67): rows with index `-1` are skipped, rows passing
the strict threshold test are looked up in the parallel stores.  An
out-of-range lookup raises `IndexError`, which the surrounding
`try/except` turns into an overall empty result (`none` here). -/
def collect_hits (docs : List String) (meta : List DocMeta) (thr : ℚ) :
    List (ℚ × ℤ) → Option (List SearchResult)
  | [] => some []
  | (sc, idx) :: rest =>
    if idx ≠ -1 ∧ thr < sc then
      match docs[idx.toNat]?, meta[idx.toNat]? with
      | some d, some m =>
        (collect_hits docs meta thr rest).map (fun rs => ⟨d, m, sc⟩ :: rs)
      | _, _ => none
    else collect_hits docs meta thr rest

/-- Model of `DocumentRetriever.search(query, top_k, score_threshold)`
(retriever.py lines 42-73).  `embed` is the composite of
`self.model.encode` and `faiss.normalize_L2` applied to the query.  The
guards mirror the source: not loaded → `[]`; blank query
(`if not query.strip()`) → `[]`; any exception inside the `try` (including
a missing index object or an out-of-range lookup) → `[]`. -/
def search (embed : String → Vec) (s : RetrieverState) (query : String)
    (top_k : ℕ) (score_threshold : ℚ) : List SearchResult :=
  if s.is_loaded = false then []
  else if (pywords query).isEmpty then []
  else
    match s.index with
    | none => []
    | some vecs =>
      (collect_hits s.documents s.metadata score_threshold
        (faiss_search vecs (embed query) top_k)).getD []

/-- Decidable hit test of the collection loop, as a predicate on rows. -/
def hit_pred (thr : ℚ) (p : ℚ × ℤ) : Prop := p.2 ≠ -1 ∧ thr < p.1

instance : DecidablePred (hit_pred thr) :=
  fun p => inferInstanceAs (Decidable (p.2 ≠ -1 ∧ thr < p.1))

lemma collect_hits_scores (docs : List String) (meta : List DocMeta) (thr : ℚ) :
    ∀ l rs, collect_hits docs meta thr l = some rs →
      rs.map SearchResult.score =
        (l.filter (fun p => decide (hit_pred thr p))).map Prod.fst := by
  intro l
  induction l with
  | nil =>
    intro rs h
    simp only [collect_hits, Option.some.injEq] at h
    rw [← h]
    rfl
  | cons p rest ih =>
    rcases p with ⟨sc, idx⟩
    intro rs h
    simp only [collect_hits] at h
    by_cases hp : idx ≠ -1 ∧ thr < sc
    · rw [if_pos hp] at h
      rcases hd : docs[idx.toNat]? with _ | d <;> rw [hd] at h
      · cases h
      rcases hm : meta[idx.toNat]? with _ | m <;> rw [hm] at h
      · cases h
      rcases Option.map_eq_some'.1 h with ⟨rs0, hrs0, hcons⟩
      rw [← hcons, List.filter_cons_of_pos (by simpa [hit_pred] using hp),
        List.map_cons, List.map_cons, ih rs0 hrs0]
    · rw [if_neg hp] at h
      rw [List.filter_cons_of_neg (by simpa [hit_pred] using hp), ih rs h]

lemma filter_pad_nil (thr : ℚ) (m : ℕ) :
    (List.replicate m ((0 : ℚ), (-1 : ℤ))).filter
      (fun p => decide (hit_pred thr p)) = [] := by
  induction m with
  | zero => rfl
  | succ m ih =>
    rw [List.replicate_succ, List.filter_cons_of_neg (by simp [hit_pred]), ih]

lemma faiss_search_filter_sorted (vecs : List Vec) (q : Vec) (k : ℕ) (thr : ℚ) :
    List.Pairwise fst_desc
      ((faiss_search vecs q k).filter (fun p => decide (hit_pred thr p))) := by
  unfold faiss_search
  rw [List.filter_append, filter_pad_nil, List.append_nil]
  exact List.Pairwise.sublist ((List.filter_sublist _).trans (List.take_sublist _ _))
    (List.sorted_insertionSort fst_desc _)

/-- C2.  `DocumentRetriever.search` returns the empty list when no index is
loaded and when the query is blank or whitespace-only (never an exception:
the body is a single `try/except` returning `[]`); its results are sorted in
non-increasing score order; and every returned score strictly exceeds the
score threshold (default 0.1), so no result's score is below it. -/
theorem search_ordered_thresholded (embed : String → Vec) (s : RetrieverState)
    (query : String) (top_k : ℕ) (thr : ℚ) :
    (s.is_loaded = false → search embed s query top_k thr = []) ∧
    (pywords query = [] → search embed s query top_k thr = []) ∧
    List.Sorted score_desc (search embed s query top_k thr) ∧
    (∀ r ∈ search embed s query top_k thr, thr < r.score) := by
  refine ⟨?_, ?_, ?_⟩
  · intro h
    unfold search
    rw [if_pos h]
  · intro h
    unfold search
    rcases hld : s.is_loaded with _ | _
    · rw [if_pos rfl]
    · rw [if_neg (by simp), if_pos (by simp [h])]
  · unfold search
    by_cases h1 : s.is_loaded = false
    · rw [if_pos h1]
      exact ⟨List.sorted_nil, fun r hr => absurd hr (List.not_mem_nil r)⟩
    rw [if_neg h1]
    by_cases h2 : (pywords query).isEmpty
    · rw [if_pos h2]
      exact ⟨List.sorted_nil, fun r hr => absurd hr (List.not_mem_nil r)⟩
    rw [if_neg h2]
    rcases hidx : s.index with _ | vecs
    · exact ⟨List.sorted_nil, fun r hr => absurd hr (List.not_mem_nil r)⟩
    dsimp only
    rcases hout : collect_hits s.documents s.metadata thr
        (faiss_search vecs (embed query) top_k) with _ | rs
    · exact ⟨List.sorted_nil, fun r hr => absurd hr (List.not_mem_nil r)⟩
    rw [Option.getD_some]
    have hsc := collect_hits_scores s.documents s.metadata thr _ rs hout
    have hrows := faiss_search_filter_sorted vecs (embed query) top_k thr
    have hmap : List.Pairwise (fun x y : ℚ => y ≤ x) (rs.map SearchResult.score) := by
      rw [hsc]
      exact List.pairwise_map.2 hrows
    have hsorted : List.Pairwise (fun a b : SearchResult => b.score ≤ a.score) rs :=
      (List.pairwise_map (f := SearchResult.score)).1 hmap
    refine ⟨hsorted, ?_⟩
    intro r hr
    have hmem : r.score ∈ rs.map SearchResult.score := List.mem_map_of_mem _ hr
    rw [hsc] at hmem
    rcases List.mem_map.1 hmem with ⟨p, hpmem, hfst⟩
    have hp := (List.mem_filter.1 hpmem).2
    have hp2 := of_decide_eq_true hp
    rw [← hfst]
    exact hp2.2

example :
    search (fun q => if q = "q" then [1] else [0])
      ⟨some [[1], [2], [0]], ["d0", "d1", "d2"], [⟨"s", 0, "t", "f"⟩, ⟨"s", 1, "t", "f"⟩, ⟨"s", 2, "t", "f"⟩], true⟩
      "q" 2 (mkRat 1 10) =
      [⟨"d1", ⟨"s", 1, "t", "f"⟩, 2⟩, ⟨"d0", ⟨"s", 0, "t", "f"⟩, 1⟩] := by
  decide

/-- Witness for C2: the not-loaded and blank-query clauses evaluated at
concrete states. -/
theorem search_ordered_thresholded_witness :
    search (fun _ => ([] : Vec)) ⟨none, [], [], false⟩ "query" 5 (mkRat 1 10) = [] ∧
    search (fun _ => ([] : Vec)) ⟨some [[1]], ["d"], [⟨"s", 0, "t", "f"⟩], true⟩ "   " 5 (mkRat 1 10) = [] :=
  ⟨(search_ordered_thresholded (fun _ => ([] : Vec)) ⟨none, [], [], false⟩ "query" 5 (mkRat 1 10)).1 rfl,
   (search_ordered_thresholded (fun _ => ([] : Vec))
      ⟨some [[1]], ["d"], [⟨"s", 0, "t", "f"⟩], true⟩ "   " 5 (mkRat 1 10)).2.1 (by decide)⟩


/-! ### Multi-query context aggregation
(`DocumentRetriever.find_relevant_context`, retriever.py lines 162-197) -/

/-- Inner loop of `find_relevant_context`: walk one query's results carrying
`(all_results, seen_content)`; a result whose exact content was already seen
is skipped, otherwise it is appended and its content added to the seen set
(retriever.py lines 170-176). -/
def dedup_into (acc : List SearchResult × List String) :
    List SearchResult → List SearchResult × List String
  | [] => acc
  | r :: rest =>
    if r.content ∈ acc.2 then dedup_into acc rest
    else dedup_into (acc.1 ++ [r], r.content :: acc.2) rest

/-- The accumulated `(all_results, seen_content)` over all queries:
`search` is run once per query with the default score threshold 0.1
(`mkRat 1 10`) and each result list is folded through `dedup_into`. -/
def gather_queries (embed : String → Vec) (s : RetrieverState) (k : ℕ)
    (queries : List String) : List SearchResult :=
  (queries.foldl (fun acc q => dedup_into acc (search embed s q k (mkRat 1 10))) ([], [])).1

/-- `all_results.sort(key=lambda x: x["score"], reverse=True)`
(retriever.py line 179). -/
def find_relevant_sorted (embed : String → Vec) (s : RetrieverState)
    (queries : List String) (k : ℕ) : List SearchResult :=
  List.insertionSort score_desc (gather_queries embed s k queries)

/-- One formatted context block (retriever.py lines 192-194; the float
format `.3f` is modelled by the exact rational rendering). -/
def format_doc (i : ℕ) (r : SearchResult) : String :=
  "Document " ++ toString (i + 1) ++ " (Source: " ++ r.metadata.file_name ++
    ", Type: " ++ r.metadata.doc_type ++ ", Relevance: " ++ toString r.score ++
    "):\n" ++ r.content ++ "\n"

/-- Model of `DocumentRetriever.find_relevant_context(queries, top_k_per_query)`
(retriever.py lines 162-197): gather per-query results deduplicated by exact
content, sort by score descending, return the joined formatted blocks (empty
string when there are no results). -/
def find_relevant_context (embed : String → Vec) (s : RetrieverState)
    (queries : List String) (k : ℕ) : String :=
  if (find_relevant_sorted embed s queries k).isEmpty then ""
  else
    String.intercalate "\n"
      ((find_relevant_sorted embed s queries k).enum.map (fun p => format_doc p.1 p.2))

/-- Contents already accumulated are recorded in the seen set. -/
def seen_covers (acc : List SearchResult × List String) : Prop :=
  ∀ c ∈ acc.1.map SearchResult.content, c ∈ acc.2

lemma dedup_into_nodup :
    ∀ (l : List SearchResult) (acc : List SearchResult × List String),
      (acc.1.map SearchResult.content).Nodup → seen_covers acc →
      ((dedup_into acc l).1.map SearchResult.content).Nodup ∧
        seen_covers (dedup_into acc l)
  | [], acc, h1, h2 => ⟨h1, h2⟩
  | r :: rest, acc, h1, h2 => by
    rw [dedup_into]
    by_cases hseen : r.content ∈ acc.2
    · rw [if_pos hseen]
      exact dedup_into_nodup rest acc h1 h2
    · rw [if_neg hseen]
      refine dedup_into_nodup rest (acc.1 ++ [r], r.content :: acc.2) ?_ ?_
      · rw [List.map_append]
        refine List.Nodup.append h1 (List.nodup_singleton _) ?_
        intro c hc hc2
        rw [List.map_singleton, List.mem_singleton] at hc2
        subst hc2
        exact hseen (h2 _ hc)
      · intro c hc
        rw [List.map_append, List.map_singleton, List.mem_append, List.mem_singleton] at hc
        rcases hc with hc | rfl
        · exact List.mem_cons_of_mem _ (h2 c hc)
        · exact List.mem_cons_self _ _

lemma dedup_into_mem :
    ∀ (l : List SearchResult) (acc : List SearchResult × List String)
      (r : SearchResult), r ∈ (dedup_into acc l).1 → r ∈ acc.1 ∨ r ∈ l
  | [], acc, r, h => Or.inl h
  | x :: rest, acc, r, h => by
    rw [dedup_into] at h
    by_cases hseen : x.content ∈ acc.2
    · rw [if_pos hseen] at h
      rcases dedup_into_mem rest acc r h with h | h
      · exact Or.inl h
      · exact Or.inr (List.mem_cons_of_mem _ h)
    · rw [if_neg hseen] at h
      rcases dedup_into_mem rest (acc.1 ++ [x], x.content :: acc.2) r h with h | h
      · rw [List.mem_append, List.mem_singleton] at h
        rcases h with h | rfl
        · exact Or.inl h
        · exact Or.inr (List.mem_cons_self _ _)
      · exact Or.inr (List.mem_cons_of_mem _ h)

lemma fold_dedup_nodup (f : String → List SearchResult) :
    ∀ (qs : List String) (acc : List SearchResult × List String),
      (acc.1.map SearchResult.content).Nodup → seen_covers acc →
      (((qs.foldl (fun a q => dedup_into a (f q)) acc)).1.map SearchResult.content).Nodup
  | [], acc, h1, _ => h1
  | q :: qs, acc, h1, h2 => by
    rw [List.foldl_cons]
    obtain ⟨h1n, h2n⟩ := dedup_into_nodup (f q) acc h1 h2
    exact fold_dedup_nodup f qs (dedup_into acc (f q)) h1n h2n

lemma fold_dedup_mem (f : String → List SearchResult) :
    ∀ (qs : List String) (acc : List SearchResult × List String) (r : SearchResult),
      r ∈ (qs.foldl (fun a q => dedup_into a (f q)) acc).1 →
      r ∈ acc.1 ∨ ∃ q ∈ qs, r ∈ f q
  | [], acc, r, h => Or.inl h
  | q :: qs, acc, r, h => by
    rw [List.foldl_cons] at h
    rcases fold_dedup_mem f qs (dedup_into acc (f q)) r h with h | ⟨q0, hq0, hr⟩
    · rcases dedup_into_mem (f q) acc r h with h | h
      · exact Or.inl h
      · exact Or.inr ⟨q, List.mem_cons_self _ _, h⟩
    · exact Or.inr ⟨q0, List.mem_cons_of_mem _ hq0, hr⟩

/-- C5.  Multi-query context aggregation runs `search` once per query (the
fold in `gather_queries` over `queries`), deduplicates by exact chunk
content — no content string occurs twice in the merged list, even when it is
independently a top match for two different queries — merges, sorts the
merged results by score in non-increasing order, and formats exactly that
sorted list (empty string when there are no results); every merged result
comes from the search results of one of the queries. -/
theorem find_relevant_context_dedup_sorted (embed : String → Vec)
    (s : RetrieverState) (queries : List String) (k : ℕ) :
    ((find_relevant_sorted embed s queries k).map SearchResult.content).Nodup ∧
    List.Sorted score_desc (find_relevant_sorted embed s queries k) ∧
    (∀ r ∈ find_relevant_sorted embed s queries k,
      ∃ q ∈ queries, r ∈ search embed s q k (mkRat 1 10)) ∧
    find_relevant_context embed s queries k =
      (if (find_relevant_sorted embed s queries k).isEmpty then ""
       else String.intercalate "\n"
         ((find_relevant_sorted embed s queries k).enum.map (fun p => format_doc p.1 p.2))) := by
  have hperm := List.perm_insertionSort score_desc (gather_queries embed s k queries)
  refine ⟨?_, ?_, ?_, rfl⟩
  · have hnodup : ((gather_queries embed s k queries).map SearchResult.content).Nodup :=
      fold_dedup_nodup (fun q => search embed s q k (mkRat 1 10)) queries ([], [])
        List.nodup_nil (fun c hc => absurd hc (List.not_mem_nil c))
    exact ((hperm.map SearchResult.content).nodup_iff).2 hnodup
  · exact List.sorted_insertionSort score_desc _
  · intro r hr
    have hr2 : r ∈ gather_queries embed s k queries := hperm.mem_iff.1 hr
    rcases fold_dedup_mem (fun q => search embed s q k (mkRat 1 10)) queries ([], []) r hr2
      with h | h
    · exact absurd h (List.not_mem_nil r)
    · exact h

example :
    find_relevant_sorted (fun q => if q = "a" then [1] else [1])
      ⟨some [[1], [2]], ["d0", "d1"], [⟨"s", 0, "t", "f"⟩, ⟨"s", 1, "t", "f"⟩], true⟩
      ["a", "b"] 1 =
      [⟨"d1", ⟨"s", 1, "t", "f"⟩, 2⟩] := by
  decide


/-! ### Indexer state: `add_documents` and `save_index`
(indexer.py lines 14-21, 129-154, 156-177) -/

/-- A document entry `{"content": ..., "metadata": ...}` passed to
`add_documents`. -/
structure DocChunk where
  content : String
  metadata : DocMeta
deriving DecidableEq

/-- State of `DocumentIndexer` (indexer.py lines 14-21): the optional FAISS
index (vector list) and the parallel document/metadata lists. -/
structure IndexerState where
  index : Option (List Vec)
  documents : List String
  metadata : List DocMeta
deriving DecidableEq

/-- The freshly constructed indexer: no index, empty parallel stores. -/
def initial_indexer : IndexerState := ⟨none, [], []⟩

/-- Model of `DocumentIndexer.add_documents(documents)`
(indexer.py lines 129-154): empty input returns unchanged; otherwise the
contents are embedded in one batch (`embed`), each vector L2-normalized
(`normalize`), the index is created if absent, and the vectors, contents and
metadata entries are appended to their three stores in the same order. -/
def add_documents (embed : String → Vec) (normalize : Vec → Vec)
    (s : IndexerState) (docs : List DocChunk) : IndexerState :=
  if docs.isEmpty then s
  else
    { index := some ((s.index.getD []) ++ (docs.map (fun d => normalize (embed d.content)))),
      documents := s.documents ++ docs.map (fun d => d.content),
      metadata := s.metadata ++ docs.map (fun d => d.metadata) }

/-- Number of vectors in the (possibly absent) index. -/
def vec_count (s : IndexerState) : ℕ := (s.index.getD []).length

/-- The invariant of the parallel stores: vector count = document count =
metadata count. -/
def parallel_consistent (s : IndexerState) : Prop :=
  vec_count s = s.documents.length ∧ s.documents.length = s.metadata.length

instance : DecidablePred parallel_consistent := fun s =>
  inferInstanceAs (Decidable (vec_count s = s.documents.length ∧
    s.documents.length = s.metadata.length))

/-- C6.  `add_documents` preserves the parallel-store invariant (vector
count = document count = metadata count, true of the fresh indexer), and in
one call appends the normalized embeddings, the contents and the metadata
entries of the input documents to the three stores in the same input
order. -/
theorem add_documents_parallel (embed : String → Vec) (normalize : Vec → Vec)
    (s : IndexerState) (docs : List DocChunk) (h : parallel_consistent s) :
    parallel_consistent (add_documents embed normalize s docs) ∧
    (add_documents embed normalize s docs).documents
      = s.documents ++ docs.map (fun d => d.content) ∧
    (add_documents embed normalize s docs).metadata
      = s.metadata ++ docs.map (fun d => d.metadata) ∧
    ((add_documents embed normalize s docs).index.getD [])
      = (s.index.getD []) ++ docs.map (fun d => normalize (embed d.content)) := by
  unfold add_documents
  rcases hdocs : docs.isEmpty with _ | _
  · rw [if_neg Bool.false_ne_true]
    obtain ⟨h1, h2⟩ := h
    unfold vec_count at h1
    refine ⟨⟨?_, ?_⟩, rfl, rfl, rfl⟩
    · simp only [vec_count, Option.getD_some, List.length_append, List.length_map]
      omega
    · simp only [List.length_append, List.length_map]
      omega
  · rw [if_pos rfl]
    have hnil : docs = [] := List.isEmpty_iff.1 hdocs
    subst hnil
    exact ⟨h, by simp, by simp, by simp⟩

/-- Witness for C6: a concrete two-document batch added to the fresh
indexer. -/
theorem add_documents_parallel_witness :
    parallel_consistent (add_documents (fun _ => [1]) id initial_indexer
      [⟨"c0", ⟨"s", 0, "t", "f"⟩⟩, ⟨"c1", ⟨"s", 1, "t", "f"⟩⟩]) ∧
    (add_documents (fun _ => [1]) id initial_indexer
      [⟨"c0", ⟨"s", 0, "t", "f"⟩⟩, ⟨"c1", ⟨"s", 1, "t", "f"⟩⟩]).documents
      = ["c0", "c1"] := by
  have h := add_documents_parallel (fun _ => [1]) id initial_indexer
    [⟨"c0", ⟨"s", 0, "t", "f"⟩⟩, ⟨"c1", ⟨"s", 1, "t", "f"⟩⟩] ⟨rfl, rfl⟩
  exact ⟨h.1, h.2.1⟩

/-- Possible outcomes of `DocumentIndexer.save_index`
(indexer.py lines 156-177).  The `raisedNoIndexError` constructor encodes
the outcome the specification claims for an empty indexer; the translated
body never produces it: with no index the function prints
`"No index to save"` and returns `None` without writing
(`skippedNoIndex`), and otherwise it writes the index artifact and the
metadata artifact holding the documents, the metadata and the
embedding-model identifier (`saved`). -/
inductive SaveOutcome where
  | raisedNoIndexError : SaveOutcome
  | skippedNoIndex : SaveOutcome
  | saved (index : List Vec) (documents : List String) (metadata : List DocMeta)
      (model_name : String) : SaveOutcome
deriving DecidableEq

/-- Model of `DocumentIndexer.save_index(index_path, metadata_path)`
(indexer.py lines 156-177). -/
def save_index (model_name : String) (s : IndexerState) : SaveOutcome :=
  match s.index with
  | none => .skippedNoIndex
  | some v => .saved v s.documents s.metadata model_name

/-- Counterexample for C7 as stated: calling `save_index` on the fresh
indexer (nothing added yet) does not fail with a `NoIndexError` — no such
exception exists anywhere in the source; the call prints a message and
returns normally without writing either artifact. -/
theorem save_index_cx :
    save_index "all-MiniLM-L6-v2" initial_indexer = SaveOutcome.skippedNoIndex ∧
    save_index "all-MiniLM-L6-v2" initial_indexer ≠ SaveOutcome.raisedNoIndexError := by
  exact ⟨rfl, by decide⟩

/-- C7 (amended).  When nothing has been added yet (`index is None`),
`save_index` returns without raising and without writing; when the index is
present it serializes the index together with the documents, the metadata
and the embedding-model identifier to the two artifacts. -/
theorem save_index_spec (model_name : String) (s : IndexerState) :
    (s.index = none → save_index model_name s = .skippedNoIndex) ∧
    (∀ v, s.index = some v →
      save_index model_name s = .saved v s.documents s.metadata model_name) := by
  constructor
  · intro h
    unfold save_index
    rw [h]
  · intro v h
    unfold save_index
    rw [h]

/-- Witness for C7: both branches of the amended save behaviour at concrete
states. -/
theorem save_index_spec_witness :
    save_index "m" initial_indexer = .skippedNoIndex ∧
    save_index "m" ⟨some [[1]], ["d"], [⟨"s", 0, "t", "f"⟩]⟩
      = .saved [[1]] ["d"] [⟨"s", 0, "t", "f"⟩] "m" :=
  ⟨(save_index_spec "m" initial_indexer).1 rfl,
   (save_index_spec "m" ⟨some [[1]], ["d"], [⟨"s", 0, "t", "f"⟩]⟩).2 [[1]] rfl⟩


/-! ### Knowledge base storage (`ResearchKnowledgeBase`, research_kb.py) -/

/-- Input repository dictionary, distilled to its identifying URL
(`repo_data.get('url', repo_data.get('html_url', ''))`, an empty string when
both keys are absent) and the remaining payload. -/
structure RepoData where
  url : String
  payload : String
deriving DecidableEq

/-- Stored (enhanced) repository entry: research_kb.py lines 70-99, distilled
to the identity-relevant fields `id`, `stored_at`, `project_context` and the
derived payload. -/
structure RepoEntry where
  id : String
  stored_at : String
  project_context : String
  data : RepoData
deriving DecidableEq

/-- Input paper dictionary, distilled to its identifying URL and payload. -/
structure PaperData where
  url : String
  payload : String
deriving DecidableEq

/-- Stored (enhanced) paper entry (research_kb.py lines 126-150). -/
structure PaperEntry where
  id : String
  stored_at : String
  project_context : String
  data : PaperData
deriving DecidableEq

/-- Stored project-analysis entry (research_kb.py lines 172-182). -/
structure AnalysisEntry where
  id : String
  analyzed_at : String
  project_description : String
  results : String
deriving DecidableEq

/-- Aggregate counters of the knowledge base `metadata` block. -/
structure KBMeta where
  total_github_repos : ℕ
  total_research_papers : ℕ
  total_projects_analyzed : ℕ
  last_updated : String
deriving DecidableEq

/-- The knowledge base dictionary (research_kb.py lines 23-35): Python dicts
are modelled as association lists with insert-or-replace semantics. -/
structure KBState where
  meta : KBMeta
  github_repositories : List (String × RepoEntry)
  research_papers : List (String × PaperEntry)
  project_analyses : List (String × AnalysisEntry)
deriving DecidableEq

/-- The empty knowledge base (`_create_empty_kb`). -/
def empty_kb (created : String) : KBState :=
  ⟨⟨0, 0, 0, created⟩, [], [], []⟩

/-- Python dict assignment `d[k] = v`: replace in place on an existing key,
append otherwise. -/
def dict_insert {α : Type} (k : String) (v : α) :
    List (String × α) → List (String × α)
  | [] => [(k, v)]
  | (k0, v0) :: rest =>
    if k0 = k then (k, v) :: rest else (k0, v0) :: dict_insert k v rest

/-- Python dict read `d.get(k)`. -/
def dict_lookup {α : Type} (k : String) : List (String × α) → Option α
  | [] => none
  | (k0, v0) :: rest => if k0 = k then some v0 else dict_lookup k rest

/-- Model of `ResearchKnowledgeBase.store_github_repository(repo_data,
project_context)` (research_kb.py lines 60-114): missing URL stores nothing
and returns `None`; otherwise the entry is stored under
`_generate_id(repo_url)` (md5 truncated to 12 hex characters, modelled by
the arbitrary function `gen_id` — every theorem below holds for every
choice, hence for md5), and the repository counter is recomputed as the dict
size.  `now` is `datetime.now().isoformat()`. -/
def store_github_repository (gen_id : String → String) (now : String)
    (kb : KBState) (repo : RepoData) (project_context : String) :
    KBState × Option String :=
  if repo.url = "" then (kb, none)
  else
    ({ kb with
        github_repositories := dict_insert (gen_id repo.url)
          ⟨gen_id repo.url, now, project_context, repo⟩ kb.github_repositories,
        meta := { kb.meta with
          total_github_repos := (dict_insert (gen_id repo.url)
            ⟨gen_id repo.url, now, project_context, repo⟩ kb.github_repositories).length,
          last_updated := now } },
      some (gen_id repo.url))

/-- Model of `store_research_paper` (research_kb.py lines 116-165), same
shape as the repository store. -/
def store_research_paper (gen_id : String → String) (now : String)
    (kb : KBState) (paper : PaperData) (project_context : String) :
    KBState × Option String :=
  if paper.url = "" then (kb, none)
  else
    ({ kb with
        research_papers := dict_insert (gen_id paper.url)
          ⟨gen_id paper.url, now, project_context, paper⟩ kb.research_papers,
        meta := { kb.meta with
          total_research_papers := (dict_insert (gen_id paper.url)
            ⟨gen_id paper.url, now, project_context, paper⟩ kb.research_papers).length,
          last_updated := now } },
      some (gen_id paper.url))

/-- Model of `store_project_analysis(project_data, analysis_results)`
(research_kb.py lines 167-193).  Note the id input:
`_generate_id(project_data + datetime.now().isoformat())` — the hash input
includes the current store time, unlike the other two stores. -/
def store_project_analysis (gen_id : String → String) (now : String)
    (kb : KBState) (project_data : String) (results : String) :
    KBState × Option String :=
  ({ kb with
      project_analyses := dict_insert (gen_id (project_data ++ now))
        ⟨gen_id (project_data ++ now), now, project_data, results⟩ kb.project_analyses,
      meta := { kb.meta with
        total_projects_analyzed := (dict_insert (gen_id (project_data ++ now))
          ⟨gen_id (project_data ++ now), now, project_data, results⟩ kb.project_analyses).length,
        last_updated := now } },
    some (gen_id (project_data ++ now)))

/-- Well-formedness of the dictionaries: keys occur at most once (true of
every Python dict). -/
def kb_wf (kb : KBState) : Prop :=
  (kb.github_repositories.map Prod.fst).Nodup ∧
  (kb.research_papers.map Prod.fst).Nodup ∧
  (kb.project_analyses.map Prod.fst).Nodup

lemma dict_insert_keys {α : Type} (k : String) (v : α) :
    ∀ l : List (String × α),
      (dict_insert k v l).map Prod.fst =
        if k ∈ l.map Prod.fst then l.map Prod.fst else l.map Prod.fst ++ [k]
  | [] => by simp [dict_insert]
  | (k0, v0) :: rest => by
    rw [dict_insert]
    by_cases h : k0 = k
    · subst h
      rw [if_pos rfl]
      simp
    · rw [if_neg h, List.map_cons, List.map_cons, dict_insert_keys k v rest]
      by_cases hmem : k ∈ rest.map Prod.fst
      · rw [if_pos hmem, if_pos (by simp [hmem])]
      · rw [if_neg hmem, if_neg (by simp [hmem, Ne.symm h]), List.cons_append]

lemma dict_lookup_insert_self {α : Type} (k : String) (v : α) :
    ∀ l : List (String × α), dict_lookup k (dict_insert k v l) = some v
  | [] => by simp [dict_insert, dict_lookup]
  | (k0, v0) :: rest => by
    rw [dict_insert]
    by_cases h : k0 = k
    · rw [if_pos h, dict_lookup, if_pos rfl]
    · rw [if_neg h, dict_lookup, if_neg h, dict_lookup_insert_self k v rest]

lemma dict_lookup_insert_ne {α : Type} {k k2 : String} (v : α) (hne : k2 ≠ k) :
    ∀ l : List (String × α), dict_lookup k2 (dict_insert k v l) = dict_lookup k2 l
  | [] => by simp [dict_insert, dict_lookup, Ne.symm hne]
  | (k0, v0) :: rest => by
    rw [dict_insert]
    by_cases h : k0 = k
    · subst h
      simp only [dict_lookup]
      rw [if_neg (Ne.symm hne), if_neg (Ne.symm hne)]
    · rw [if_neg h]
      simp only [dict_lookup]
      by_cases h2 : k0 = k2
      · rw [if_pos h2, if_pos h2]
      · rw [if_neg h2, if_neg h2, dict_lookup_insert_ne v hne rest]

lemma dict_insert_count_self {α : Type} (k : String) (v : α)
    (l : List (String × α)) (h : (l.map Prod.fst).Nodup) :
    ((dict_insert k v l).map Prod.fst).count k = 1 := by
  rw [dict_insert_keys]
  by_cases hk : k ∈ l.map Prod.fst
  · rw [if_pos hk]
    exact List.count_eq_one_of_mem h hk
  · rw [if_neg hk, List.count_append, List.count_eq_zero_of_not_mem hk]
    simp

lemma dict_insert_keys_nodup {α : Type} (k : String) (v : α)
    (l : List (String × α)) (h : (l.map Prod.fst).Nodup) :
    ((dict_insert k v l).map Prod.fst).Nodup := by
  rw [dict_insert_keys]
  by_cases hk : k ∈ l.map Prod.fst
  · rw [if_pos hk]
    exact h
  · rw [if_neg hk]
    refine List.Nodup.append h (List.nodup_singleton _) ?_
    intro a ha ha2
    rw [List.mem_singleton] at ha2
    subst ha2
    exact hk ha

lemma dict_insert_length_not_mem {α : Type} (k : String) (v : α)
    (l : List (String × α)) (hk : k ∉ l.map Prod.fst) :
    (dict_insert k v l).length = l.length + 1 := by
  have h := dict_insert_keys k v l
  rw [if_neg hk] at h
  have h2 : ((dict_insert k v l).map Prod.fst).length = (l.map Prod.fst ++ [k]).length := by
    rw [h]
  rw [List.length_map, List.length_append, List.length_map] at h2
  simpa using h2


/-- Counterexample for C3 as stated: for the ProjectAnalysis kind the stored
id is derived from `project_data + datetime.now().isoformat()` — a
time-dependent input, not the stable identifying string alone — so storing
the same project description twice (at two different times, here with the
identity function in place of the hash, a legitimate instance since the
claim quantifies over the external hash) leaves two entries, not one. -/
theorem knowledge_item_dedup_cx :
    ¬ (∀ (gen_id : String → String) (now1 now2 p r1 r2 : String),
        ((store_project_analysis gen_id now2
            ((store_project_analysis gen_id now1 (empty_kb "t0") p r1).1)
            p r2).1).project_analyses.length = 1) := by
  intro h
  have h2 := h (fun x => x) "2024-01-01T00:00:00" "2024-01-02T00:00:00" "proj" "r1" "r2"
  revert h2
  decide

/-- C3 (amended).  For the Repository and Paper kinds the id is the hash of
the stable identifying URL, so storing the same URL twice leaves exactly one
entry for that id, holding the second payload (with the second store time) —
overwrite, not duplication, for every choice of the hash function.  For the
ProjectAnalysis kind the hash input includes the store time: two stores of
the same project description at times yielding distinct ids append two
separate entries (time-based, not hash-of-identity-based). -/
theorem knowledge_item_dedup (gen_id : String → String) (now1 now2 : String)
    (kb : KBState) (hwf : kb_wf kb) :
    (∀ (r1 r2 : RepoData) (c1 c2 : String), r2.url = r1.url → r1.url ≠ "" →
      ((((store_github_repository gen_id now2
          ((store_github_repository gen_id now1 kb r1 c1).1) r2 c2).1).github_repositories.map
            Prod.fst).count (gen_id r1.url) = 1 ∧
        dict_lookup (gen_id r1.url)
          (((store_github_repository gen_id now2
            ((store_github_repository gen_id now1 kb r1 c1).1) r2 c2).1).github_repositories)
          = some ⟨gen_id r1.url, now2, c2, r2⟩)) ∧
    (∀ (p1 p2 : PaperData) (c1 c2 : String), p2.url = p1.url → p1.url ≠ "" →
      ((((store_research_paper gen_id now2
          ((store_research_paper gen_id now1 kb p1 c1).1) p2 c2).1).research_papers.map
            Prod.fst).count (gen_id p1.url) = 1 ∧
        dict_lookup (gen_id p1.url)
          (((store_research_paper gen_id now2
            ((store_research_paper gen_id now1 kb p1 c1).1) p2 c2).1).research_papers)
          = some ⟨gen_id p1.url, now2, c2, p2⟩)) ∧
    (∀ (p res1 res2 : String),
      gen_id (p ++ now1) ∉ kb.project_analyses.map Prod.fst →
      gen_id (p ++ now2) ∉ kb.project_analyses.map Prod.fst →
      gen_id (p ++ now1) ≠ gen_id (p ++ now2) →
      ((store_project_analysis gen_id now2
          ((store_project_analysis gen_id now1 kb p res1).1) p res2).1).project_analyses.length
        = kb.project_analyses.length + 2) := by
  obtain ⟨hwf1, hwf2, hwf3⟩ := hwf
  refine ⟨?_, ?_, ?_⟩
  · intro r1 r2 c1 c2 hurl hne
    have hne2 : r2.url ≠ "" := by rw [hurl]; exact hne
    simp only [store_github_repository, if_neg hne, if_neg hne2]
    rw [hurl]
    exact ⟨dict_insert_count_self _ _ _ (dict_insert_keys_nodup _ _ _ hwf1),
      dict_lookup_insert_self _ _ _⟩
  · intro p1 p2 c1 c2 hurl hne
    have hne2 : p2.url ≠ "" := by rw [hurl]; exact hne
    simp only [store_research_paper, if_neg hne, if_neg hne2]
    rw [hurl]
    exact ⟨dict_insert_count_self _ _ _ (dict_insert_keys_nodup _ _ _ hwf2),
      dict_lookup_insert_self _ _ _⟩
  · intro p res1 res2 h1 h2 hne
    simp only [store_project_analysis]
    have hkeys := dict_insert_keys (gen_id (p ++ now1))
      (⟨gen_id (p ++ now1), now1, p, res1⟩ : AnalysisEntry) kb.project_analyses
    rw [if_neg h1] at hkeys
    have h2i : gen_id (p ++ now2) ∉
        ((dict_insert (gen_id (p ++ now1)) ⟨gen_id (p ++ now1), now1, p, res1⟩
          kb.project_analyses).map Prod.fst) := by
      rw [hkeys, List.mem_append, List.mem_singleton]
      rintro (h | h)
      · exact h2 h
      · exact hne h.symm
    rw [dict_insert_length_not_mem _ _ _ h2i, dict_insert_length_not_mem _ _ _ h1]

/-- Witness for C3: the repository overwrite and the analysis duplication,
evaluated on concrete data from the empty knowledge base with the identity
function in place of the hash. -/
theorem knowledge_item_dedup_witness :
    ((((store_github_repository (fun x => x) "T2"
        ((store_github_repository (fun x => x) "T1" (empty_kb "t0") ⟨"u", "p1"⟩ "c1").1)
        ⟨"u", "p2"⟩ "c2").1).github_repositories.map Prod.fst).count "u" = 1 ∧
      dict_lookup "u"
        (((store_github_repository (fun x => x) "T2"
          ((store_github_repository (fun x => x) "T1" (empty_kb "t0") ⟨"u", "p1"⟩ "c1").1)
          ⟨"u", "p2"⟩ "c2").1).github_repositories)
        = some ⟨"u", "T2", "c2", ⟨"u", "p2"⟩⟩) ∧
    ((store_project_analysis (fun x => x) "T2"
        ((store_project_analysis (fun x => x) "T1" (empty_kb "t0") "proj" "r1").1)
        "proj" "r2").1).project_analyses.length = 0 + 2 :=
  ⟨(knowledge_item_dedup (fun x => x) "T1" "T2" (empty_kb "t0")
      ⟨List.nodup_nil, List.nodup_nil, List.nodup_nil⟩).1
    ⟨"u", "p1"⟩ ⟨"u", "p2"⟩ "c1" "c2" rfl (by decide),
   (knowledge_item_dedup (fun x => x) "T1" "T2" (empty_kb "t0")
      ⟨List.nodup_nil, List.nodup_nil, List.nodup_nil⟩).2.2
    "proj" "r1" "r2" (by decide) (by decide) (by decide)⟩


/-- Model of `ResearchKnowledgeBase.clear_old_data(days_old)`
(research_kb.py lines 394-425).  `parse_ts` models
`datetime.fromisoformat(...).timestamp()` on the stored ISO strings,
`now_ts` is `datetime.now().timestamp()` and `now_iso` the matching ISO
string; the cutoff is `now_ts - days_old * 24 * 60 * 60`.  Repositories and
papers whose `stored_at` timestamp is strictly below the cutoff are removed
(the two comprehensions + deletions), then the two aggregate counters are
recomputed as the remaining dict sizes and `last_updated` refreshed;
project analyses are not touched. -/
def clear_old_data (parse_ts : String → ℤ) (now_ts : ℤ) (now_iso : String)
    (kb : KBState) (days_old : ℤ) : KBState :=
  { kb with
      github_repositories := kb.github_repositories.filter
        (fun p => decide (¬ parse_ts p.2.stored_at < now_ts - days_old * 24 * 60 * 60)),
      research_papers := kb.research_papers.filter
        (fun p => decide (¬ parse_ts p.2.stored_at < now_ts - days_old * 24 * 60 * 60)),
      meta := { kb.meta with
        total_github_repos := (kb.github_repositories.filter
          (fun p => decide (¬ parse_ts p.2.stored_at < now_ts - days_old * 24 * 60 * 60))).length,
        total_research_papers := (kb.research_papers.filter
          (fun p => decide (¬ parse_ts p.2.stored_at < now_ts - days_old * 24 * 60 * 60))).length,
        last_updated := now_iso } }

/-- C8.  `clear_old_data` keeps a stored repository or paper exactly when its
`stored_at` timestamp does not predate `now - days`, removes the rest, leaves
project analyses untouched, and afterwards the stored aggregate counters
equal the sizes of the remaining sets exactly (e.g. of two items aged 10 and
40 days with `days_old = 30`, only the 40-day one is removed — see the
instance below the theorem). -/
theorem clear_old_data_prunes (parse_ts : String → ℤ) (now_ts : ℤ)
    (now_iso : String) (kb : KBState) (days_old : ℤ) :
    (∀ p, p ∈ (clear_old_data parse_ts now_ts now_iso kb days_old).github_repositories ↔
      (p ∈ kb.github_repositories ∧
        ¬ parse_ts p.2.stored_at < now_ts - days_old * 24 * 60 * 60)) ∧
    (∀ p, p ∈ (clear_old_data parse_ts now_ts now_iso kb days_old).research_papers ↔
      (p ∈ kb.research_papers ∧
        ¬ parse_ts p.2.stored_at < now_ts - days_old * 24 * 60 * 60)) ∧
    (clear_old_data parse_ts now_ts now_iso kb days_old).meta.total_github_repos
      = (clear_old_data parse_ts now_ts now_iso kb days_old).github_repositories.length ∧
    (clear_old_data parse_ts now_ts now_iso kb days_old).meta.total_research_papers
      = (clear_old_data parse_ts now_ts now_iso kb days_old).research_papers.length ∧
    (clear_old_data parse_ts now_ts now_iso kb days_old).project_analyses
      = kb.project_analyses ∧
    (clear_old_data parse_ts now_ts now_iso kb days_old).meta.total_projects_analyzed
      = kb.meta.total_projects_analyzed := by
  refine ⟨?_, ?_, rfl, rfl, rfl, rfl⟩
  · intro p
    simp only [clear_old_data, List.mem_filter, decide_eq_true_eq]
  · intro p
    simp only [clear_old_data, List.mem_filter, decide_eq_true_eq]

example :
    clear_old_data
      (fun s => if s = "TEN_DAYS_AGO" then 8640000 - 10 * 86400 else 8640000 - 40 * 86400)
      8640000 "NOW"
      ⟨⟨2, 0, 0, "T"⟩,
        [("a", ⟨"a", "TEN_DAYS_AGO", "c", ⟨"u1", "p1"⟩⟩),
         ("b", ⟨"b", "FORTY_DAYS_AGO", "c", ⟨"u2", "p2"⟩⟩)], [], []⟩
      30 =
    ⟨⟨1, 0, 0, "NOW"⟩, [("a", ⟨"a", "TEN_DAYS_AGO", "c", ⟨"u1", "p1"⟩⟩)], [], []⟩ := by
  decide


/-! ### Orchestration pipeline
(`OptimizerOrchestrator.process_project_comprehensive` and
`_generate_process_summary`, orchestrator.py lines 173-338 and 449-471) -/

/-- A Task Agent result dictionary, distilled to its `status` field and the
remaining payload (for an error result the payload is the exception
message). -/
structure TaskResult where
  status : String
  payload : String
deriving DecidableEq

/-- One agent invocation as the orchestrator sees it: the agent either
returns its result dictionary or raises (the exception's message). -/
abbrev AgentRun := Except String TaskResult

/-- The catch-all wrapping of one task invocation: an exception becomes the
structured result `{"status": "error", "error": str(e), ...}`.  This is the
`try/except` of the orchestrator wrappers `_run_blueprint_agent`,
`_run_crawler_agent`, `_run_optimizer_agent`, `_run_echo_agent`
(orchestrator.py lines 341-411) and equally of the agent-internal catches of
`synthesize_comprehensive_report` (synthesis_agent.py lines 170, 209-214),
`comprehensive_analysis` (analysis_agent.py lines 279, 304-308),
`create_executive_dashboard` and `generate_action_plan`
(synthesis_agent.py lines 218-277, 281-337), which the orchestrator calls
without its own wrapper. -/
def catch_to_error : AgentRun → TaskResult
  | .ok r => r
  | .error e => ⟨"error", e⟩

/-- The crawler task's result dictionary: its `status`, its `research`
value (`none` models Python `None`) and the remaining payload.
`research_project_ecosystem` has exactly two return shapes
(crawler_agent.py lines 349-360): `{"status": "success", "research": {...}}`
with `research` a dict that always carries `detailed_projects`, or
`{"status": "error", "error": str(e), "research": None}` from its internal
catch. -/
structure CrawlerResult where
  status : String
  research : Option String
  payload : String
deriving DecidableEq

/-- `_run_crawler_agent` (orchestrator.py lines 348-353): an exception from
the crawler also becomes `{"status": "error", "error": str(e),
"research": None}` — so on every crawler failure path the stored `research`
value is `None`. -/
def crawler_catch : Except String CrawlerResult → CrawlerResult
  | .ok r => r
  | .error e => ⟨"error", none, e⟩

/-- The behaviour of the eight tasks of one run (the crawler's carries its
`research` value, which the pipeline reads at orchestrator.py line 288). -/
structure AgentBehaviors where
  blueprint : AgentRun
  crawler : Except String CrawlerResult
  optimizer : AgentRun
  echo : AgentRun
  synthesis : AgentRun
  analysis : AgentRun
  dashboard : AgentRun
  action_plan : AgentRun

/-- The crawler's entry in the results dictionary, distilled like the other
entries to its status and payload. -/
def crawler_task_entry (b : AgentBehaviors) : TaskResult :=
  ⟨(crawler_catch b.crawler).status, (crawler_catch b.crawler).payload⟩

/-- The summary built by `_generate_process_summary`
(orchestrator.py lines 449-471). -/
structure RunSummary where
  total_agents_run : ℕ
  successful_agents : ℕ
  failed_agents : ℕ
  agent_results : List (String × String)
deriving DecidableEq

/-- One step of the summary loop: the `indexing` entry is skipped; an entry
counts as successful exactly when its `status` field is `"success"`. -/
def summary_step (acc : RunSummary) (nr : String × TaskResult) : RunSummary :=
  if nr.1 = "indexing" then acc
  else
    ⟨acc.total_agents_run + 1,
      acc.successful_agents + (if nr.2.status = "success" then 1 else 0),
      acc.failed_agents + (if nr.2.status = "success" then 0 else 1),
      acc.agent_results ++ [(nr.1, if nr.2.status = "success" then "success" else "failed")]⟩

/-- `_generate_process_summary(results)`: fold the per-task entries. -/
def generate_process_summary (results : List (String × TaskResult)) : RunSummary :=
  results.foldl summary_step ⟨0, 0, 0, []⟩

/-- The non-`indexing` entries of the results dictionary. -/
def non_indexing (results : List (String × TaskResult)) : List (String × TaskResult) :=
  results.filter (fun nr => decide (nr.1 ≠ "indexing"))

/-- The entries recorded before the comprehensive-analysis step, in the
source's insertion order (orchestrator.py lines 235-236, 268-269, 282):
`pre` is the optional indexing entry.  These are the entries a run aborted
at line 288 retains. -/
def partial_results (pre : List (String × TaskResult)) (b : AgentBehaviors) :
    List (String × TaskResult) :=
  pre ++
    [("blueprint", catch_to_error b.blueprint),
     ("crawler", crawler_task_entry b),
     ("optimizer", catch_to_error b.optimizer),
     ("echo_analysis", catch_to_error b.echo),
     ("synthesis", catch_to_error b.synthesis)]

/-- The per-task entries of a run that reaches the end (orchestrator.py
lines 292, 306-307): the analysis entry follows the synthesis entry, and
the dashboard and action-plan entries exist only when the synthesis
result's status is `"success"` (line 295). -/
def run_results (pre : List (String × TaskResult)) (b : AgentBehaviors) :
    List (String × TaskResult) :=
  partial_results pre b ++
    [("analysis", catch_to_error b.analysis)] ++
    (if (catch_to_error b.synthesis).status = "success" then
      [("dashboard", catch_to_error b.dashboard),
       ("action_plan", catch_to_error b.action_plan)]
    else [])

/-- The orchestrator output distilled to the final status, the per-task
results and the summary (`results["process_info"]["status"]`,
`results["results"]`, `results["process_info"]["summary"]`). -/
structure RunOutput where
  status : String
  results : List (String × TaskResult)
  summary : Option RunSummary
deriving DecidableEq

/-- The run after the indexing step (orchestrator.py lines 209-338).  After
the synthesis entry is recorded, line 288 evaluates
`crawler_result.get("research", {}).get("detailed_projects", [])`; when the
crawler failed, the key `"research"` is present with value `None`, so the
`{}` default does not apply and `None.get(...)` raises `AttributeError`,
which the outer `except` (lines 325-338) turns into a final status of
`"error"` with no summary — the analysis, dashboard and action-plan steps
never run.  Otherwise every remaining step runs, the final status is
`"completed"` and the summary is computed (lines 284-320). -/
def process_rest (pre : List (String × TaskResult)) (b : AgentBehaviors) : RunOutput :=
  if (crawler_catch b.crawler).research = none then
    ⟨"error", partial_results pre b, none⟩
  else
    ⟨"completed", run_results pre b, some (generate_process_summary (run_results pre b))⟩

/-- Model of `process_project_comprehensive` (orchestrator.py lines
173-338): when documents/transcripts were provided the indexing result is
recorded first and an indexing error aborts the whole run with status
`"error"` and no summary (lines 201-207); otherwise all tiers run. -/
def process_project_comprehensive (indexing : Option TaskResult)
    (b : AgentBehaviors) : RunOutput :=
  match indexing with
  | some r =>
    if r.status = "error" then ⟨"error", [("indexing", r)], none⟩
    else process_rest [("indexing", r)] b
  | none => process_rest [] b

lemma dict_lookup_append_right {α : Type} (k : String) :
    ∀ (l1 l2 : List (String × α)), k ∉ l1.map Prod.fst →
      dict_lookup k (l1 ++ l2) = dict_lookup k l2
  | [], l2, _ => rfl
  | (k0, v0) :: rest, l2, h => by
    rw [List.cons_append, dict_lookup]
    rw [List.map_cons, List.mem_cons] at h
    push_neg at h
    rw [if_neg (fun he => h.1 he.symm)]
    exact dict_lookup_append_right k rest l2 h.2

lemma dict_lookup_append_left {α : Type} (k : String) {v : α} :
    ∀ (l1 l2 : List (String × α)), dict_lookup k l1 = some v →
      dict_lookup k (l1 ++ l2) = some v
  | [], _, h => by cases h
  | (k0, v0) :: rest, l2, h => by
    rw [List.cons_append, dict_lookup]
    rw [dict_lookup] at h
    by_cases h0 : k0 = k
    · rw [if_pos h0] at h ⊢
      exact h
    · rw [if_neg h0] at h ⊢
      exact dict_lookup_append_left k rest l2 h

lemma generate_summary_go :
    ∀ (l : List (String × TaskResult)) (acc : RunSummary),
      l.foldl summary_step acc =
        ⟨acc.total_agents_run + (non_indexing l).length,
         acc.successful_agents +
           (non_indexing l).countP (fun nr => decide (nr.2.status = "success")),
         acc.failed_agents +
           (non_indexing l).countP (fun nr => decide (¬ nr.2.status = "success")),
         acc.agent_results ++ (non_indexing l).map
           (fun nr => (nr.1, if nr.2.status = "success" then "success" else "failed"))⟩
  | [], acc => by simp [non_indexing]
  | nr :: rest, acc => by
    rw [List.foldl_cons, generate_summary_go rest (summary_step acc nr)]
    unfold summary_step non_indexing
    by_cases h : nr.1 = "indexing"
    · rw [if_pos h, List.filter_cons_of_neg (by simp [h])]
    · rw [if_neg h, List.filter_cons_of_pos (by simp [h])]
      simp only [List.length_cons, List.countP_cons, List.map_cons]
      by_cases hs : nr.2.status = "success"
      · simp only [RunSummary.mk.injEq, hs]
        norm_num
        omega
      · simp only [RunSummary.mk.injEq, hs]
        norm_num
        omega

lemma generate_process_summary_counts (results : List (String × TaskResult)) :
    generate_process_summary results =
      ⟨(non_indexing results).length,
       (non_indexing results).countP (fun nr => decide (nr.2.status = "success")),
       (non_indexing results).countP (fun nr => decide (¬ nr.2.status = "success")),
       (non_indexing results).map
         (fun nr => (nr.1, if nr.2.status = "success" then "success" else "failed"))⟩ := by
  unfold generate_process_summary
  rw [generate_summary_go]
  simp


/-- A run in which spec section 8's own test scenario holds: the one
Tier-A crawler task fails (here by raising) and every other agent
succeeds. -/
def crawler_fail_run : AgentBehaviors :=
  ⟨.ok ⟨"success", "bp"⟩, .error "boom", .ok ⟨"success", "op"⟩, .ok ⟨"success", "ec"⟩,
    .ok ⟨"success", "sy"⟩, .ok ⟨"success", "an"⟩, .ok ⟨"success", "da"⟩,
    .ok ⟨"success", "ap"⟩⟩

/-- The same run with the crawler succeeding (its `research` dict present). -/
def crawler_ok_run : AgentBehaviors :=
  { crawler_fail_run with crawler := .ok ⟨"success", some "research", "cr"⟩ }

/-- A run in which every agent except the crawler fails. -/
def only_crawler_ok_run : AgentBehaviors :=
  ⟨.error "b1", .ok ⟨"success", some "research", "cr"⟩, .error "b3", .error "b4",
    .error "b5", .error "b6", .error "b7", .error "b8"⟩

/-- C4.  The claim fails on the code at exactly one failure path, the one
the specification's own test pins down (one Tier-A task — the crawler —
forced to fail, all others succeeding): the run ends with final status
`"error"` and no summary, and the analysis, dashboard and action-plan
tasks never run, because orchestrator.py line 288 evaluates
`crawler_result.get("research", {}).get("detailed_projects", [])` on the
failed crawler's stored `research = None` (the key is present, so the `{}`
default does not apply), raising `AttributeError` into the outer `except`.
The claimed behaviour was the intent: the crawler's own entry still holds
the structured `{"status": "error", "error": message}` result, the same run
with the crawler succeeding completes with all eight entries and zero
failed agents, and a run in which every agent except the crawler fails
still completes with the five failures merely counted in the summary — the
abort is specific to the line-288 slip. -/
theorem crawler_failure_aborts_run :
    (process_project_comprehensive none crawler_fail_run).status = "error" ∧
    (process_project_comprehensive none crawler_fail_run).summary = none ∧
    dict_lookup "analysis"
      (process_project_comprehensive none crawler_fail_run).results = none ∧
    dict_lookup "dashboard"
      (process_project_comprehensive none crawler_fail_run).results = none ∧
    dict_lookup "crawler"
      (process_project_comprehensive none crawler_fail_run).results
      = some ⟨"error", "boom"⟩ ∧
    (process_project_comprehensive none crawler_ok_run).status = "completed" ∧
    (process_project_comprehensive none crawler_ok_run).summary
      = some ⟨8, 8, 0,
          [("blueprint", "success"), ("crawler", "success"), ("optimizer", "success"),
           ("echo_analysis", "success"), ("synthesis", "success"), ("analysis", "success"),
           ("dashboard", "success"), ("action_plan", "success")]⟩ ∧
    (process_project_comprehensive none only_crawler_ok_run).status = "completed" ∧
    (process_project_comprehensive none only_crawler_ok_run).summary
      = some ⟨6, 1, 5,
          [("blueprint", "failed"), ("crawler", "success"), ("optimizer", "failed"),
           ("echo_analysis", "failed"), ("synthesis", "failed"), ("analysis", "failed")]⟩ := by
  decide

/-! ### Flask-level processing state: `/api/process`, `/api/clear`, and the
background completion write (app.py lines 34-36, 57-78, 165-205, 373-393) -/

/-- The process-wide mutable state of app.py: the `current_results` global,
whether the route guard `processing_thread and processing_thread.is_alive()`
sees a live thread, and `orchestrator.process_status`. -/
structure AppState where
  current_results : Option String
  thread_alive : Bool
  process_status : String
deriving DecidableEq

/-- Startup state (app.py lines 34-36, orchestrator.py line 64). -/
def initial_app_state : AppState := ⟨none, false, "idle"⟩

/-- `/api/process` (app.py lines 165-205): a second run request while a live
thread exists is rejected with a conflict (`false`) and the state is
untouched; otherwise `current_results` is reset and the background thread
started (`process_project_comprehensive` sets `process_status` to
`"running"` as it begins, orchestrator.py line 181). -/
def start_process (s : AppState) : AppState × Bool :=
  if s.thread_alive then (s, false)
  else (⟨none, true, "running"⟩, true)

/-- Completion of the background run on its success path (app.py lines
63-69, orchestrator.py line 322): `async_process_project` assigns the
finished run's output to the global `current_results` unconditionally —
app.py has no run id, generation counter, or any check of the current state
before the write — and the orchestrator sets `process_status` to
`"completed"`; the thread then terminates.  (A run that raises writes its
error payload at app.py lines 70-78, equally unconditionally.) -/
def thread_finish (_s : AppState) (result : String) : AppState :=
  ⟨some result, false, "completed"⟩

/-- `/api/clear` (app.py lines 373-393): resets `current_results` and the
thread reference, and sets the orchestrator status to `"idle"`.  Dropping
the reference does not stop a still-running OS thread: its completion is
the `thread_finish` step applied after this one. -/
def clear_results_op (_s : AppState) : AppState :=
  ⟨none, false, "idle"⟩

/-- Counterexample for C9 as stated: a run is started, `/api/clear` resets
the state while the run's background work is in flight, and the work then
completes — the completion write overwrites the cleared state with the
run's result and status `"completed"`, because no generation counter or
run-id check exists in app.py.  (Spec §9 itself lists the run-id discipline
as a proposed replacement for these ad hoc globals.) -/
theorem clear_stale_write_cx :
    ¬ (∀ (s : AppState) (r : String),
        (thread_finish (clear_results_op s) r).current_results = none) := by
  intro h
  have h2 := h (start_process initial_app_state).1 "finished-run-output"
  revert h2
  decide

/-- C9 (amended).  The clear operation can reset the idle/active state at
any time — after it, `current_results` is empty, no thread reference
remains, and the status is `"idle"` — but in-flight work that completes
after the reset does resurrect state: the completion write installs the
run's result and sets the status to `"completed"` regardless of the
intervening clear, since no run-id/generation check exists. -/
theorem clear_then_stale_write (s : AppState) (r : String) :
    (clear_results_op s).current_results = none ∧
    (clear_results_op s).thread_alive = false ∧
    (clear_results_op s).process_status = "idle" ∧
    (thread_finish (clear_results_op s) r).current_results = some r ∧
    (thread_finish (clear_results_op s) r).process_status = "completed" :=
  ⟨rfl, rfl, rfl, rfl, rfl⟩

example :
    thread_finish (clear_results_op (start_process initial_app_state).1) "out" =
      ⟨some "out", false, "completed"⟩ := by
  decide

end Optimizer
